import Mathlib

/-!
Verification of the `ldap-groups` library (`ldap_groups/utils.py` and
`ldap_groups/groups.py`) against its natural-language specification.

The Python source is shallowly embedded: strings are `String` / `List Char`,
the LDAP connection is modelled as an oracle (the protocol response, or the
protocol-level fault, is passed in as an argument), and Python exceptions
become `Except` values over an explicit error type.
-/

set_option linter.unusedVariables false

namespace LdapGroups

/-! ## `ldap_groups/utils.py` -/

/-- Python `str.replace(pattern, rep)` for a one-character pattern: every
occurrence of the character `c` is replaced by the string `rep`. -/
def pyReplaceChar (c : Char) (rep : List Char) : List Char → List Char
  | [] => []
  | a :: s => (if a = c then rep else [a]) ++ pyReplaceChar c rep s

/-- `escape_query` from `ldap_groups/utils.py`:
`query.replace("\\", "\5C").replace("*", "\2A").replace("(", "\28").replace(")", "\29")`.
The replacement literals are not raw strings, so Python reads `"\5C"` as the
octal escape `chr(5)` followed by `'C'`, `"\2A"` as `chr(2)` followed by `'A'`,
`"\28"` as `chr(2)` followed by `'8'`, and `"\29"` as `chr(2)` followed by
`'9'`. The embedding reproduces those exact replacement strings. -/
def escape_query (query : List Char) : List Char :=
  pyReplaceChar ')' [Char.ofNat 2, '9']
    (pyReplaceChar '(' [Char.ofNat 2, '8']
      (pyReplaceChar '*' [Char.ofNat 2, 'A']
        (pyReplaceChar '\\' [Char.ofNat 5, 'C'] query)))

/-! ## DN string helpers used by `parent` / `ancestor` (`groups.py`) -/

/-- Python `dn.split(",", 1)`: the part after the first comma, when a comma
occurs. -/
def afterFirstComma : List Char → Option (List Char)
  | [] => Option.none
  | c :: rest => if c = ',' then some rest else afterFirstComma rest

/-- Python `dn.split(",", 1).pop()`: the suffix after the first comma, or the
whole string when it has no comma. -/
def parentDn (dn : List Char) : List Char :=
  (afterFirstComma dn).getD dn

/-- Python `dn.split("DC")[0]`: the prefix before the first occurrence of the
substring `"DC"`, or the whole string when `"DC"` does not occur. -/
def beforeDC : List Char → List Char
  | [] => []
  | c :: rest => if c = 'D' ∧ rest.head? = some 'C' then [] else c :: beforeDC rest

/-- Whitespace as split by Python `str.split()` (the ASCII whitespace
characters, which are the only ones occurring in distinguished names). -/
def isPySpace (c : Char) : Bool :=
  c == ' ' || c == '\t' || c == '\n' || c == '\r' || c == Char.ofNat 11 || c == Char.ofNat 12

/-- The guard `''.join(self.group_dn.split("DC")[0].split()) == ''` in
`parent` and `ancestor`: everything before the first `"DC"` is whitespace. -/
def atDomainRoot (dn : List Char) : Bool :=
  (beforeDC dn).all isPySpace

/-- One `parent` step at the DN level: keep the DN at the domain root,
otherwise drop the leading RDN component. -/
def stepDn (dn : List Char) : List Char :=
  if atDomainRoot dn then dn else parentDn dn

/-- The loop body of `ancestor`: strip one RDN component per generation,
breaking out as soon as the domain-root guard fires. -/
def ancestorDnAux : Nat → List Char → List Char
  | 0, dn => dn
  | n + 1, dn => if atDomainRoot dn then dn else ancestorDnAux n (parentDn dn)

/-! ## The `ADGroup` handle (`groups.py`) -/

/-- The state of an `ADGroup` handle: the target DN, the configuration fields
set by `__init__`, and the `self.attributes` cache (initialised to the empty
collection, which Python tests for with falsiness). -/
structure ADGroup where
  group_dn : String
  server_uri : String
  base_dn : String
  user_lookup_attr : String
  group_lookup_attr : String
  attr_list : List String
  bind_dn : Option String
  bind_password : Option String
  user_search_base_dn : String
  group_search_base_dn : String
  attributes : List (String × List String)
  deriving DecidableEq, Repr

/-- The `ADGroup(...)` constructor call shared verbatim by `get_descendants`,
`get_children`, `child`, `parent` and `ancestor`: every configuration field of
`self` is passed through, except that the source passes
`group_search_base_dn=self.user_search_base_dn`. A fresh handle starts with an
empty attribute cache. -/
def derivedHandle (g : ADGroup) (dn : String) : ADGroup :=
  { group_dn := dn
    server_uri := g.server_uri
    base_dn := g.base_dn
    user_lookup_attr := g.user_lookup_attr
    group_lookup_attr := g.group_lookup_attr
    attr_list := g.attr_list
    bind_dn := g.bind_dn
    bind_password := g.bind_password
    user_search_base_dn := g.user_search_base_dn
    group_search_base_dn := g.user_search_base_dn
    attributes := [] }

/-- `ADGroup.parent`: return `self` at the domain root, otherwise construct a
new handle on the DN with its leading RDN component stripped. -/
def ADGroup.parent (g : ADGroup) : ADGroup :=
  if atDomainRoot g.group_dn.toList then g
  else derivedHandle g (String.mk (parentDn g.group_dn.toList))

/-- `ADGroup.ancestor(generation)`: `generation < 1` returns `self`; otherwise
run the stripping loop `generation` times (breaking at the domain root) and
construct a new handle on the resulting DN. -/
def ADGroup.ancestor (g : ADGroup) (generation : Int) : ADGroup :=
  if generation < 1 then g
  else derivedHandle g (String.mk (ancestorDnAux generation.toNat g.group_dn.toList))

/-- `parent()` applied `n` times. -/
def parentIter : Nat → ADGroup → ADGroup
  | 0, g => g
  | n + 1, g => (parentIter n g).parent

/-! ## LDAP responses and the attribute cache -/

/-- One entry of `ldap_connection.response` / of a paged-search result:
its response type tag, its DN and its attribute map. -/
structure SearchEntry where
  type : String
  dn : String
  attributes : List (String × List String)
  deriving DecidableEq, Repr

/-- The normalisation applied to every response:
`[... for result in response if result["type"] == "searchResEntry"]`. -/
def searchResEntries (response : List SearchEntry) : List SearchEntry :=
  response.filter (fun r => r.type == "searchResEntry")

/-- The cache value computed by `get_attributes` from a search response:
`results[0]` when the filtered result list is non-empty, the empty collection
otherwise. -/
def firstResultAttrs (response : List SearchEntry) : List (String × List String) :=
  match (searchResEntries response).map (fun r => r.attributes) with
  | [] => []
  | r :: _ => r

/-- `ADGroup.get_attributes(no_cache=False)`, with the LDAP response to the
`ATTRIBUTES_SEARCH` supplied as an oracle. Returns the updated handle, the
returned attribute collection, and whether a search was issued. The source
tests only `if not self.attributes:`; the `no_cache` parameter is accepted but
never read. -/
def get_attributes (g : ADGroup) (response : List SearchEntry) (no_cache : Bool) :
    ADGroup × List (String × List String) × Bool :=
  if g.attributes.isEmpty then
    let attrs := firstResultAttrs response
    ({ g with attributes := attrs }, attrs, true)
  else
    (g, g.attributes, false)

/-- The value `ADGroup.get_attribute` hands back to the caller: Python `None`,
a single unwrapped value, or the value list as returned by the server. -/
inductive AttrResult
  | absent
  | single (v : String)
  | multi (vs : List String)
  deriving DecidableEq, Repr

/-- Key lookup in an attribute map (Python `attribute_name in attributes` /
`attributes[attribute_name]`). -/
def lookupAttr (attrs : List (String × List String)) (name : String) : Option (List String) :=
  (attrs.find? (fun p => p.1 == name)).map (fun p => p.2)

/-- `ADGroup.get_attribute(attribute_name, no_cache=False)`: look the name up
in `get_attributes(no_cache)`; a missing name gives `None` (logged at debug
level only), a one-element value list is unwrapped, anything else is returned
as is. -/
def get_attribute (g : ADGroup) (response : List SearchEntry) (attribute_name : String)
    (no_cache : Bool) : ADGroup × AttrResult :=
  let step := get_attributes g response no_cache
  match lookupAttr step.2.1 attribute_name with
  | Option.none => (step.1, AttrResult.absent)
  | some raw =>
    match raw with
    | [v] => (step.1, AttrResult.single v)
    | _ => (step.1, AttrResult.multi raw)

/-! ## Traversal searches (`get_descendants`, `get_children`, `child`) -/

/-- `group_type = object_class[-1] if object_class else None` in
`get_children` / `child`: `None`, the empty string and the empty list are
falsy; indexing a string takes its last character, indexing a list its last
element. -/
def groupTypeOf : AttrResult → Option String
  | AttrResult.absent => Option.none
  | AttrResult.single v => if v.isEmpty then Option.none else some (String.singleton v.back)
  | AttrResult.multi vs => vs.getLast?

/-- `ADGroup.get_descendants`: one derived handle per search-result entry of
the paged `DESCENDANT_SEARCH` response. -/
def get_descendants (g : ADGroup) (entry_list : List SearchEntry) : List ADGroup :=
  (searchResEntries entry_list).map (fun e => derivedHandle g e.dn)

/-- `ADGroup.get_children`, with the already-fetched `objectClass` attribute
and the paged-search response supplied as oracles. An unknown group type and
an invalid-filter fault both yield the empty list; otherwise each result DN
yields one derived handle. -/
def get_children (g : ADGroup) (object_class : AttrResult) (entry_list : List SearchEntry)
    (invalid_filter : Bool) : List ADGroup :=
  match groupTypeOf object_class with
  | Option.none => []
  | some t =>
    if t == "group" || t == "organizationalUnit" then
      if invalid_filter then []
      else (searchResEntries entry_list).map (fun e => derivedHandle g e.dn)
    else []

/-- `ADGroup.child(group_name)`: a derived handle on the first result DN, or
no handle when the search returns nothing (the source returns the falsy `[]`
for an unknown group type and `None` for zero matches; both are modelled as
`Option.none`). -/
def child (g : ADGroup) (object_class : AttrResult) (entry_list : List SearchEntry) :
    Option ADGroup :=
  match groupTypeOf object_class with
  | Option.none => Option.none
  | some t =>
    if t == "group" || t == "organizationalUnit" then
      match (searchResEntries entry_list).map (fun e => e.dn) with
      | [] => Option.none
      | dn :: _ => some (derivedHandle g dn)
    else Option.none

/-! ## Error taxonomy (`ldap_groups/exceptions.py`) and fault oracles -/

/-- The application-level exceptions raised by `groups.py`, each carrying its
message string. -/
inductive LGError
  | accountDoesNotExist (msg : String)
  | groupDoesNotExist (msg : String)
  | invalidGroupDN (msg : String)
  | improperlyConfigured (msg : String)
  | invalidCredentials (msg : String)
  | ldapServerUnreachable (msg : String)
  | modificationFailed (msg : String)
  | entryAlreadyExists (msg : String)
  | insufficientPermissions (msg : String)
  deriving DecidableEq, Repr

/-- The outcome of the validity-probe search issued by `_get_valididty`,
one constructor per `ldap3` fault the source catches. -/
inductive ProbeOutcome
  | success
  | operationsError (info : String)
  | invalidDNSyntax
  | noSuchObject
  | sizeLimitExceeded
  deriving DecidableEq, Repr

/-- `ADGroup._get_valididty` (the source's spelling): an operations error is
re-raised as `ImproperlyConfigured`; the three DN faults give
`(False, reason)`; success gives `(True, "")`. -/
def get_valididty (group_dn : String) (outcome : ProbeOutcome) :
    Except LGError (Bool × String) :=
  match outcome with
  | ProbeOutcome.operationsError info =>
    Except.error (LGError.improperlyConfigured
      ("The LDAP server most-likely does not accept anonymous connections: \n\t" ++ info))
  | ProbeOutcome.invalidDNSyntax =>
    Except.ok (false, "Invalid DN Syntax: " ++ group_dn)
  | ProbeOutcome.noSuchObject =>
    Except.ok (false, "No such group: " ++ group_dn)
  | ProbeOutcome.sizeLimitExceeded =>
    Except.ok (false, "This group has too many children for ldap-groups to handle: " ++ group_dn)
  | ProbeOutcome.success =>
    Except.ok (true, "")

/-- The validity gate at the end of `ADGroup.__init__`: run the probe and
raise `InvalidGroupDN` with the reason when the group is not valid. -/
def initValidity (group_dn : String) (outcome : ProbeOutcome) : Except LGError Unit :=
  match get_valididty group_dn outcome with
  | Except.error e => Except.error e
  | Except.ok (valid, reason) =>
    if valid then Except.ok ()
    else Except.error (LGError.invalidGroupDN
      ("The AD Group distinguished name provided is invalid:\n\t" ++ reason))

/-! ## Membership mutation (`_get_user_dn`, `_get_group_dn`,
`_attempt_modification`, `add_member`, `remove_member`, `add_child`,
`remove_child`) -/

/-- `ldap3` modify operation kinds used by the source. -/
inductive ModType
  | modifyAdd
  | modifyDelete
  deriving DecidableEq, Repr

/-- The single-attribute change dictionary (key `'member'`, modify kind, and
value list) passed to `_attempt_modification`. -/
structure Modification where
  attr_key : String
  mod_type : ModType
  values : List String
  deriving DecidableEq, Repr

/-- The outcome of the `ldap_connection.modify` call, one constructor per
fault class the source catches. -/
inductive ModifyOutcome
  | ok
  | entryAlreadyExistsResult
  | insufficientAccessRightsResult
  | otherLDAPError (msg : String)
  deriving DecidableEq, Repr

/-- `ADGroup._get_user_dn`: the DN of the first user-search result, or
`AccountDoesNotExist` when the search matches nothing. -/
def get_user_dn (user_lookup_attr : String) (response : List SearchEntry) :
    Except LGError String :=
  match (searchResEntries response).map (fun r => r.dn) with
  | [] => Except.error (LGError.accountDoesNotExist
      ("The " ++ user_lookup_attr ++ " provided does not exist in the Active Directory."))
  | dn :: _ => Except.ok dn

/-- `ADGroup._get_group_dn`: the DN of the first group-search result, or
`GroupDoesNotExist` when the search matches nothing. -/
def get_group_dn (group_lookup_attr : String) (response : List SearchEntry) :
    Except LGError String :=
  match (searchResEntries response).map (fun r => r.dn) with
  | [] => Except.error (LGError.groupDoesNotExist
      ("The " ++ group_lookup_attr ++ " provided does not exist in the Active Directory."))
  | dn :: _ => Except.ok dn

/-- The message prefix built by `ADGroup._attempt_modification` from the
modification kind, the target kind, the target identifier and the group DN. -/
def modMessageBase (group_dn target_type target_identifier : String)
    (modification : Modification) : String :=
  let action_word := if modification.mod_type = ModType.modifyAdd then "adding" else "removing"
  let action_prep := if modification.mod_type = ModType.modifyAdd then "to" else "from"
  "Error " ++ action_word ++ " " ++ target_type ++ " '" ++ target_identifier ++ "' "
    ++ action_prep ++ " group '" ++ group_dn ++ "': "

/-- `ADGroup._attempt_modification`: issue the modify against the group's own
DN and translate each protocol fault into the error taxonomy. -/
def attempt_modification (group_dn target_type target_identifier : String)
    (modification : Modification) (outcome : ModifyOutcome) : Except LGError Unit :=
  let message_base := modMessageBase group_dn target_type target_identifier modification
  match outcome with
  | ModifyOutcome.ok => Except.ok ()
  | ModifyOutcome.entryAlreadyExistsResult =>
    Except.error (LGError.entryAlreadyExists
      (message_base ++ "The " ++ target_type ++ " already exists."))
  | ModifyOutcome.insufficientAccessRightsResult =>
    Except.error (LGError.insufficientPermissions
      (message_base ++ "The bind user does not have permission to modify this group."))
  | ModifyOutcome.otherLDAPError msg =>
    Except.error (LGError.modificationFailed (message_base ++ msg))

/-- `ADGroup.add_member`: resolve the lookup value, then attempt the
`MODIFY_ADD` on the `member` attribute. The second component lists the modify
operations actually issued against the directory. -/
def add_member (g : ADGroup) (user_lookup_attribute_value : String)
    (userSearchResponse : List SearchEntry) (modifyOutcome : ModifyOutcome) :
    Except LGError Unit × List Modification :=
  match get_user_dn g.user_lookup_attr userSearchResponse with
  | Except.error e => (Except.error e, [])
  | Except.ok dn =>
    let m : Modification := ⟨"member", ModType.modifyAdd, [dn]⟩
    (attempt_modification g.group_dn "member" user_lookup_attribute_value m modifyOutcome, [m])

/-- `ADGroup.remove_member`: resolve the lookup value, then attempt the
`MODIFY_DELETE` on the `member` attribute. -/
def remove_member (g : ADGroup) (user_lookup_attribute_value : String)
    (userSearchResponse : List SearchEntry) (modifyOutcome : ModifyOutcome) :
    Except LGError Unit × List Modification :=
  match get_user_dn g.user_lookup_attr userSearchResponse with
  | Except.error e => (Except.error e, [])
  | Except.ok dn =>
    let m : Modification := ⟨"member", ModType.modifyDelete, [dn]⟩
    (attempt_modification g.group_dn "member" user_lookup_attribute_value m modifyOutcome, [m])

/-- `ADGroup.add_child`: resolve the child group, then attempt the
`MODIFY_ADD` on the `member` attribute. -/
def add_child (g : ADGroup) (group_lookup_attribute_value : String)
    (groupSearchResponse : List SearchEntry) (modifyOutcome : ModifyOutcome) :
    Except LGError Unit × List Modification :=
  match get_group_dn g.group_lookup_attr groupSearchResponse with
  | Except.error e => (Except.error e, [])
  | Except.ok dn =>
    let m : Modification := ⟨"member", ModType.modifyAdd, [dn]⟩
    (attempt_modification g.group_dn "child" group_lookup_attribute_value m modifyOutcome, [m])

/-- `ADGroup.remove_child`: resolve the child group, then attempt the
`MODIFY_DELETE` on the `member` attribute. -/
def remove_child (g : ADGroup) (group_lookup_attribute_value : String)
    (groupSearchResponse : List SearchEntry) (modifyOutcome : ModifyOutcome) :
    Except LGError Unit × List Modification :=
  match get_group_dn g.group_lookup_attr groupSearchResponse with
  | Except.error e => (Except.error e, [])
  | Except.ok dn =>
    let m : Modification := ⟨"member", ModType.modifyDelete, [dn]⟩
    (attempt_modification g.group_dn "child" group_lookup_attribute_value m modifyOutcome, [m])

/-! ## `__eq__` / `__hash__` -/

/-- A Python value as seen by `ADGroup.__eq__`: either another `ADGroup`
instance or an object of some other class. -/
inductive PyObject
  | adgroup (g : ADGroup)
  | other (tag : String)
  deriving DecidableEq, Repr

/-- `ADGroup.__eq__`: `isinstance(other, self.__class__) and
self.group_dn == other.group_dn`. -/
def ADGroup.eq (a : ADGroup) (o : PyObject) : Bool :=
  match o with
  | PyObject.adgroup b => a.group_dn == b.group_dn
  | PyObject.other _ => false

/-- `ADGroup.__hash__`: `hash(self.group_dn)`, modelled with the string hash. -/
def ADGroup.hashPy (a : ADGroup) : UInt64 :=
  String.hash a.group_dn

/-! ## Search templates relevant to the claims -/

/-- `ldap3` search scopes used by the source. -/
inductive Scope
  | baseObject
  | singleLevel
  | wholeSubtree
  deriving DecidableEq, Repr

/-- Attribute projection directives used by the source. -/
inductive AttrProjection
  | noAttributes
  | allAttributes
  | explicitList (attrs : List String)
  deriving DecidableEq, Repr

/-- An immutable search template as built in `ADGroup.__init__`. -/
structure SearchTemplate where
  base_dn : String
  scope : Scope
  filter_string : String
  attribute_list : AttrProjection
  deriving DecidableEq, Repr

/-- `self.ATTRIBUTES_SEARCH`: the group's own DN, base-object scope, all
attributes. -/
def ATTRIBUTES_SEARCH (g : ADGroup) : SearchTemplate :=
  { base_dn := g.group_dn
    scope := Scope.baseObject
    filter_string := "(|(objectClass=group)(objectClass=organizationalUnit))"
    attribute_list := AttrProjection.allAttributes }

/-- `self.VALID_GROUP_TEST`: the validity probe runs against the group's own
DN with base-object scope and no attributes. -/
def VALID_GROUP_TEST (g : ADGroup) : SearchTemplate :=
  { base_dn := g.group_dn
    scope := Scope.baseObject
    filter_string := "(|(objectClass=group)(objectClass=organizationalUnit))"
    attribute_list := AttrProjection.noAttributes }

/-! ## Concrete fixtures used in the closed theorems -/

/-- A concrete handle whose user and group search bases differ. -/
def g0 : ADGroup :=
  { group_dn := "CN=grp,OU=unit,DC=example,DC=com"
    server_uri := "ldaps://ad.example.com"
    base_dn := "DC=example,DC=com"
    user_lookup_attr := "sAMAccountName"
    group_lookup_attr := "name"
    attr_list := ["displayName", "sAMAccountName", "distinguishedName"]
    bind_dn := some "CN=binder,DC=example,DC=com"
    bind_password := some "pw"
    user_search_base_dn := "OU=users,DC=example,DC=com"
    group_search_base_dn := "OU=groups,DC=example,DC=com"
    attributes := [] }

/-- A concrete search-result entry. -/
def entry0 : SearchEntry :=
  { type := "searchResEntry"
    dn := "CN=kid,CN=grp,OU=unit,DC=example,DC=com"
    attributes := [("cn", ["kid"])] }

/-- A handle with the same DN as `g0` but different configuration. -/
def g1 : ADGroup :=
  { g0 with server_uri := "ldap://other.example.org", bind_dn := Option.none }

/-- A handle already at the domain root. -/
def gRoot : ADGroup :=
  { g0 with group_dn := "DC=example,DC=com" }

/-- A handle with a non-empty attribute cache. -/
def gCached : ADGroup :=
  { g0 with attributes := [("cn", ["grp"]), ("objectClass", ["top", "group"])] }

/-- A search-result entry carrying a single-valued and a multi-valued
attribute. -/
def entryAttrs : SearchEntry :=
  { type := "searchResEntry"
    dn := "CN=grp,OU=unit,DC=example,DC=com"
    attributes := [("name", ["grp"]), ("member", ["CN=a,DC=example,DC=com", "CN=b,DC=example,DC=com"])] }

/-! ## Helper lemmas -/

/-- Replacing a character that does not occur in a string leaves it
unchanged. -/
theorem pyReplaceChar_of_not_mem {c : Char} {rep : List Char} {s : List Char}
    (h : ∀ a ∈ s, a ≠ c) : pyReplaceChar c rep s = s := by
  induction s with
  | nil => rfl
  | cons a s ih =>
    have ha : a ≠ c := h a (by simp)
    simp [pyReplaceChar, ha, ih (fun b hb => h b (by simp [hb]))]

/-- The suffix after the first comma is strictly shorter than the string. -/
theorem afterFirstComma_length : ∀ {dn t : List Char},
    afterFirstComma dn = some t → t.length < dn.length := by
  intro dn
  induction dn with
  | nil => intro t h; simp [afterFirstComma] at h
  | cons c rest ih =>
    intro t h
    by_cases hc : c = ','
    · simp [afterFirstComma, hc] at h
      simp [← h]
    · simp [afterFirstComma, hc] at h
      have := ih h
      simp
      omega

/-- One DN step either fixes the DN or strictly shortens it. -/
theorem stepDn_eq_or_length_lt (dn : List Char) :
    stepDn dn = dn ∨ (stepDn dn).length < dn.length := by
  unfold stepDn
  by_cases h : atDomainRoot dn
  · simp [h]
  · simp [h]
    unfold parentDn
    cases hc : afterFirstComma dn with
    | none => simp
    | some t => exact Or.inr (by simpa using afterFirstComma_length hc)

/-- Iterating the DN step eventually reaches a fixed point. -/
theorem exists_stepDn_fix (dn : List Char) :
    ∃ k, stepDn (stepDn^[k] dn) = stepDn^[k] dn := by
  generalize hn : dn.length = n
  induction n using Nat.strong_induction_on generalizing dn with
  | _ n ih =>
    rcases stepDn_eq_or_length_lt dn with h | h
    · exact ⟨0, by simpa using h⟩
    · obtain ⟨k, hk⟩ := ih (stepDn dn).length (by omega) (stepDn dn) rfl
      exact ⟨k + 1, by simpa [Function.iterate_succ_apply] using hk⟩

/-- The `ancestor` loop computes the iterated DN step. -/
theorem ancestorDnAux_eq_iterate : ∀ (n : Nat) (dn : List Char),
    ancestorDnAux n dn = stepDn^[n] dn := by
  intro n
  induction n with
  | zero => intro dn; rfl
  | succ n ih =>
    intro dn
    by_cases h : atDomainRoot dn
    · have hfix : stepDn dn = dn := by simp [stepDn, h]
      simp [ancestorDnAux, h, Function.iterate_fixed hfix]
    · have hstep : stepDn dn = parentDn dn := by simp [stepDn, h]
      simp [ancestorDnAux, h, Function.iterate_succ_apply, hstep, ih (parentDn dn)]

/-- The DN of `parent()` is one DN step. -/
theorem parent_group_dn (g : ADGroup) :
    (g.parent).group_dn.toList = stepDn g.group_dn.toList := by
  show (g.parent).group_dn.data = stepDn g.group_dn.data
  unfold ADGroup.parent stepDn
  by_cases h : atDomainRoot g.group_dn.data <;> simp [h, derivedHandle]

/-- The DN of `n` applications of `parent()` is the `n`-fold DN step. -/
theorem parentIter_group_dn (n : Nat) (g : ADGroup) :
    (parentIter n g).group_dn.toList = stepDn^[n] g.group_dn.toList := by
  induction n with
  | zero => rfl
  | succ n ih =>
    have h1 : parentIter (n + 1) g = (parentIter n g).parent := rfl
    rw [h1, parent_group_dn, ih, Function.iterate_succ_apply']

/-- Rebuilding a derived handle on its own DN changes nothing. -/
theorem derivedHandle_idem (g : ADGroup) (s s' : String) :
    derivedHandle (derivedHandle g s) s' = derivedHandle g s' := by
  simp [derivedHandle]

/-- `parent()` at the domain root returns `self`. -/
theorem parent_at_root {g : ADGroup} (h : atDomainRoot g.group_dn.toList = true) :
    g.parent = g := by
  unfold ADGroup.parent
  simp only [String.toList] at h
  simp [h]

/-- `parent()` away from the domain root constructs a derived handle on the
stripped DN. -/
theorem parent_not_root {g : ADGroup} (h : atDomainRoot g.group_dn.toList = false) :
    g.parent = derivedHandle g (String.mk (parentDn g.group_dn.toList)) := by
  unfold ADGroup.parent
  simp only [String.toList] at h
  simp [h]

/-- Iterating `parent()` reaches a handle that `parent()` maps to itself. -/
theorem exists_parent_fix (g : ADGroup) : ∃ k, (parentIter k g).parent = parentIter k g := by
  obtain ⟨k0, hk0⟩ := exists_stepDn_fix g.group_dn.toList
  have hdn : (parentIter k0 g).group_dn.toList = stepDn^[k0] g.group_dn.toList :=
    parentIter_group_dn k0 g
  by_cases hroot : atDomainRoot (parentIter k0 g).group_dn.toList = true
  · exact ⟨k0, parent_at_root hroot⟩
  · refine ⟨k0 + 1, ?_⟩
    have hroot' : atDomainRoot (parentIter k0 g).group_dn.toList = false := by
      simpa using hroot
    have hfix : parentDn (parentIter k0 g).group_dn.toList = (parentIter k0 g).group_dn.toList := by
      have := hk0
      rw [← hdn] at this
      rw [stepDn, hroot'] at this
      simpa using this
    have hstep1 : parentIter (k0 + 1) g = derivedHandle (parentIter k0 g) (parentIter k0 g).group_dn := by
      have h1 : parentIter (k0 + 1) g = (parentIter k0 g).parent := rfl
      rw [h1, parent_not_root hroot', hfix]
      congr 1
    have hdn1 : (parentIter (k0 + 1) g).group_dn = (parentIter k0 g).group_dn := by
      rw [hstep1]; rfl
    have hroot1 : atDomainRoot (parentIter (k0 + 1) g).group_dn.toList = false := by
      rw [hdn1]; exact hroot'
    rw [parent_not_root hroot1, hstep1, derivedHandle_idem]
    congr 1
    have h2 : (derivedHandle (parentIter k0 g) (parentIter k0 g).group_dn).group_dn
        = (parentIter k0 g).group_dn := rfl
    rw [h2, hfix]
    rfl

/-! ## Claim theorems -/

/-- Claim C1 (refuting evidence): the claim says `escape_query` maps each
reserved character to a literal backslash followed by two hex digits. The
replacement literals in the source are not raw strings, so Python reads them
as octal escapes: each reserved character is mapped to a control character
(`chr(5)` or `chr(2)`) followed by a single hex-digit character, and
`escape_query` never produces a backslash. The repository's own test suite
(`src/tests/test_utils.py`, raw-string expectations) agrees with the claim,
so the code contradicts its tests. -/
theorem escape_query_octal_escape_divergence :
    escape_query ['\\'] = [Char.ofNat 5, 'C'] ∧
    escape_query ['*'] = [Char.ofNat 2, 'A'] ∧
    escape_query ['('] = [Char.ofNat 2, '8'] ∧
    escape_query [')'] = [Char.ofNat 2, '9'] ∧
    escape_query ['\\', '*', '(', ')'] =
      [Char.ofNat 5, 'C', Char.ofNat 2, 'A', Char.ofNat 2, '8', Char.ofNat 2, '9'] ∧
    escape_query ['('] ≠ ['\\', '2', '8'] ∧
    escape_query ['\\', '*', '(', ')'] ≠
      ['\\', '5', 'C', '\\', '2', 'A', '\\', '2', '8', '\\', '2', '9'] := by
  decide

/-- Claim C2: `escape_query` is pure and total (it is a Lean function), and
on any string containing none of the four reserved characters — backslash,
asterisk and the two parentheses — it is the identity. -/
theorem escape_query_identity_on_safe_strings (s : List Char)
    (h : ∀ a ∈ s, a ≠ '\\' ∧ a ≠ '*' ∧ a ≠ '(' ∧ a ≠ ')') :
    escape_query s = s := by
  unfold escape_query
  rw [pyReplaceChar_of_not_mem (fun a ha => (h a ha).1)]
  rw [pyReplaceChar_of_not_mem (fun a ha => (h a ha).2.1)]
  rw [pyReplaceChar_of_not_mem (fun a ha => (h a ha).2.2.1)]
  rw [pyReplaceChar_of_not_mem (fun a ha => (h a ha).2.2.2)]

/-- Witness for C2 at the concrete safe string used by the repository's
tests. -/
theorem escape_query_identity_on_safe_strings_witness :
    (∀ a ∈ "Hello World! I have no problem characters in me!".toList,
       a ≠ '\\' ∧ a ≠ '*' ∧ a ≠ '(' ∧ a ≠ ')') ∧
    escape_query "Hello World! I have no problem characters in me!".toList
      = "Hello World! I have no problem characters in me!".toList :=
  ⟨by decide, escape_query_identity_on_safe_strings _ (by decide)⟩

/-- Claim C3 (refuting evidence): every traversal operation constructs its
result handles with the constructor-argument list embedded as
`derivedHandle`, which copies every configuration field of the originating
handle except `group_search_base_dn`, which it sets to the originating
handle's `user_search_base_dn` (the source passes
`group_search_base_dn=self.user_search_base_dn`). On the fixture `g0`, whose
two search bases differ, every traversal result's group search base therefore
changes. -/
theorem traversal_swaps_group_search_base :
    (∀ (g : ADGroup) (dn : String),
       (derivedHandle g dn).group_dn = dn ∧
       (derivedHandle g dn).server_uri = g.server_uri ∧
       (derivedHandle g dn).base_dn = g.base_dn ∧
       (derivedHandle g dn).user_lookup_attr = g.user_lookup_attr ∧
       (derivedHandle g dn).group_lookup_attr = g.group_lookup_attr ∧
       (derivedHandle g dn).attr_list = g.attr_list ∧
       (derivedHandle g dn).bind_dn = g.bind_dn ∧
       (derivedHandle g dn).bind_password = g.bind_password ∧
       (derivedHandle g dn).user_search_base_dn = g.user_search_base_dn ∧
       (derivedHandle g dn).group_search_base_dn = g.user_search_base_dn) ∧
    g0.parent = derivedHandle g0 "OU=unit,DC=example,DC=com" ∧
    g0.ancestor 1 = derivedHandle g0 "OU=unit,DC=example,DC=com" ∧
    get_descendants g0 [entry0] = [derivedHandle g0 entry0.dn] ∧
    get_children g0 (AttrResult.multi ["top", "group"]) [entry0] false
      = [derivedHandle g0 entry0.dn] ∧
    child g0 (AttrResult.multi ["top", "group"]) [entry0]
      = some (derivedHandle g0 entry0.dn) ∧
    (g0.parent).group_search_base_dn = g0.user_search_base_dn ∧
    (g0.parent).group_search_base_dn ≠ g0.group_search_base_dn := by
  refine ⟨fun g dn => ⟨rfl, rfl, rfl, rfl, rfl, rfl, rfl, rfl, rfl, rfl⟩,
    ?_, ?_, ?_, ?_, ?_, ?_, ?_⟩
  all_goals decide

/-- Claim C4 (refuting evidence): `get_attributes` consults only the
emptiness of the cache. With an empty cache it searches (base-object scope on
the group's own DN, all attributes) and caches the first result, an empty
collection when the search returns nothing; but the `no_cache` argument is
never read, so with a non-empty cache the cached set is returned and no
search is issued even when a refresh is forced with `no_cache=True`,
contradicting the method's own docstring. -/
theorem get_attributes_ignores_no_cache (g : ADGroup) (response : List SearchEntry) :
    (g.attributes = [] → ∀ no_cache,
       get_attributes g response no_cache =
         ({ g with attributes := firstResultAttrs response }, firstResultAttrs response, true)) ∧
    (g.attributes ≠ [] → ∀ no_cache,
       get_attributes g response no_cache = (g, g.attributes, false)) ∧
    (ATTRIBUTES_SEARCH g).base_dn = g.group_dn ∧
    (ATTRIBUTES_SEARCH g).scope = Scope.baseObject ∧
    (ATTRIBUTES_SEARCH g).attribute_list = AttrProjection.allAttributes := by
  refine ⟨?_, ?_, rfl, rfl, rfl⟩
  · intro h no_cache
    simp [get_attributes, h]
  · intro h no_cache
    cases hA : g.attributes with
    | nil => exact absurd hA h
    | cons a t => simp [get_attributes, hA]

/-- Witness for C4: a handle with a non-empty cache and a forced refresh
still gets the cached set back with no search issued. -/
theorem get_attributes_ignores_no_cache_witness :
    gCached.attributes ≠ [] ∧
    get_attributes gCached [entryAttrs] true = (gCached, gCached.attributes, false) :=
  ⟨by decide, (get_attributes_ignores_no_cache gCached [entryAttrs]).2.1 (by decide) true⟩

/-- Claim C5: `get_attribute` returns the distinguished absent value for a
name missing from the fetched attribute set (raising nothing — the embedding
is total), unwraps one-element value lists, and returns multi-element value
lists as the sequence itself. -/
theorem get_attribute_absent_and_unwrap (g : ADGroup) (response : List SearchEntry)
    (attribute_name : String) (no_cache : Bool) :
    (lookupAttr (get_attributes g response no_cache).2.1 attribute_name = Option.none →
       (get_attribute g response attribute_name no_cache).2 = AttrResult.absent) ∧
    (∀ v, lookupAttr (get_attributes g response no_cache).2.1 attribute_name = some [v] →
       (get_attribute g response attribute_name no_cache).2 = AttrResult.single v) ∧
    (∀ vs, 2 ≤ vs.length →
       lookupAttr (get_attributes g response no_cache).2.1 attribute_name = some vs →
       (get_attribute g response attribute_name no_cache).2 = AttrResult.multi vs) := by
  refine ⟨?_, ?_, ?_⟩
  · intro h
    simp [get_attribute, h]
  · intro v h
    simp [get_attribute, h]
  · intro vs hlen h
    obtain ⟨a, b, rest, rfl⟩ : ∃ a b rest, vs = a :: b :: rest := by
      cases vs with
      | nil => simp at hlen
      | cons a t =>
        cases t with
        | nil => simp at hlen
        | cons b rest => exact ⟨a, b, rest, rfl⟩
    simp [get_attribute, h]

/-- Witness for C5 on a concrete response with a single-valued attribute, a
multi-valued attribute and a missing name. -/
theorem get_attribute_absent_and_unwrap_witness :
    (get_attribute g0 [entryAttrs] "name" false).2 = AttrResult.single "grp" ∧
    (get_attribute g0 [entryAttrs] "member" false).2
      = AttrResult.multi ["CN=a,DC=example,DC=com", "CN=b,DC=example,DC=com"] ∧
    (get_attribute g0 [entryAttrs] "missing" false).2 = AttrResult.absent :=
  ⟨(get_attribute_absent_and_unwrap g0 [entryAttrs] "name" false).2.1 "grp" (by decide),
   (get_attribute_absent_and_unwrap g0 [entryAttrs] "member" false).2.2
     ["CN=a,DC=example,DC=com", "CN=b,DC=example,DC=com"] (by decide) (by decide),
   (get_attribute_absent_and_unwrap g0 [entryAttrs] "missing" false).1 (by decide)⟩

/-- Claim C6: `parent()` returns the same handle unchanged when everything
before the first occurrence of `"DC"` in the DN is whitespace; otherwise it
returns a new handle on the suffix after the first comma; and iterating
`parent()` always reaches a handle that further calls map to itself. -/
theorem parent_strip_root_and_fixed_point :
    (∀ g : ADGroup, atDomainRoot g.group_dn.toList = true → g.parent = g) ∧
    (∀ g : ADGroup, atDomainRoot g.group_dn.toList = false →
       (g.parent).group_dn.toList = parentDn g.group_dn.toList) ∧
    (∀ g : ADGroup, ∃ k, (parentIter k g).parent = parentIter k g) := by
  refine ⟨fun g h => parent_at_root h, fun g h => ?_, fun g => exists_parent_fix g⟩
  rw [parent_group_dn]
  simp only [String.toList] at h
  simp [stepDn, h]

/-- Witness for C6 at a domain-root handle and a three-component handle. -/
theorem parent_strip_root_and_fixed_point_witness :
    atDomainRoot gRoot.group_dn.toList = true ∧ gRoot.parent = gRoot ∧
    atDomainRoot g0.group_dn.toList = false ∧
    (g0.parent).group_dn.toList = parentDn g0.group_dn.toList :=
  ⟨by decide, parent_strip_root_and_fixed_point.1 gRoot (by decide),
   by decide, parent_strip_root_and_fixed_point.2.1 g0 (by decide)⟩

/-- Claim C7: `ancestor(generation)` returns `self` for a zero or negative
generation; for a positive generation `n` it returns a handle that the
library's own equality (`__eq__`, comparison of group DNs) identifies with
`parent()` applied `n` times, the stripping loop stopping early at the
domain root without any fault (the embedding is total). -/
theorem ancestor_iterates_parent :
    (∀ (g : ADGroup) (generation : Int), generation < 1 → g.ancestor generation = g) ∧
    (∀ (g : ADGroup) (n : Nat), 1 ≤ n →
       (g.ancestor (n : Int)).eq (PyObject.adgroup (parentIter n g)) = true) := by
  constructor
  · intro g generation h
    unfold ADGroup.ancestor
    simp [h]
  · intro g n h
    have hlt : ¬((n : Int) < 1) := by omega
    unfold ADGroup.ancestor
    rw [if_neg hlt]
    have htn : ((n : Int)).toNat = n := by omega
    rw [htn]
    have hmk : String.mk (ancestorDnAux n g.group_dn.toList) = (parentIter n g).group_dn := by
      rw [ancestorDnAux_eq_iterate, ← parentIter_group_dn]
      rfl
    show (String.mk (ancestorDnAux n g.group_dn.toList) == (parentIter n g).group_dn) = true
    rw [hmk]
    simp

/-- Witness for C7 at generation `-1` and generation `2` on a concrete
handle. -/
theorem ancestor_iterates_parent_witness :
    ((-1 : Int) < 1 ∧ g0.ancestor (-1) = g0) ∧
    (1 ≤ 2 ∧ (g0.ancestor ((2 : Nat) : Int)).eq (PyObject.adgroup (parentIter 2 g0)) = true) :=
  ⟨⟨by decide, ancestor_iterates_parent.1 g0 (-1) (by decide)⟩,
   ⟨by decide, ancestor_iterates_parent.2 g0 2 (by decide)⟩⟩

/-- Claim C8: handle construction runs the validity probe against the target
DN (base-object scope) and maps each protocol fault distinctly: invalid DN
syntax, no such object and size-limit exceeded become `InvalidGroupDN` whose
reason embeds `"Invalid DN Syntax: <dn>"`, `"No such group: <dn>"`, or names
the DN as having too many children; an operations error becomes
`ImproperlyConfigured`; probe success lets construction proceed. -/
theorem construction_fault_mapping (dn info : String) :
    initValidity dn ProbeOutcome.invalidDNSyntax =
      Except.error (LGError.invalidGroupDN
        ("The AD Group distinguished name provided is invalid:\n\t"
          ++ ("Invalid DN Syntax: " ++ dn))) ∧
    initValidity dn ProbeOutcome.noSuchObject =
      Except.error (LGError.invalidGroupDN
        ("The AD Group distinguished name provided is invalid:\n\t"
          ++ ("No such group: " ++ dn))) ∧
    initValidity dn ProbeOutcome.sizeLimitExceeded =
      Except.error (LGError.invalidGroupDN
        ("The AD Group distinguished name provided is invalid:\n\t"
          ++ ("This group has too many children for ldap-groups to handle: " ++ dn))) ∧
    initValidity dn (ProbeOutcome.operationsError info) =
      Except.error (LGError.improperlyConfigured
        ("The LDAP server most-likely does not accept anonymous connections: \n\t" ++ info)) ∧
    initValidity dn ProbeOutcome.success = Except.ok () ∧
    (∀ g : ADGroup,
       (VALID_GROUP_TEST g).base_dn = g.group_dn ∧
       (VALID_GROUP_TEST g).scope = Scope.baseObject) :=
  ⟨rfl, rfl, rfl, rfl, rfl, fun g => ⟨rfl, rfl⟩⟩

/-- Claim C9: a lookup with zero directory matches raises
`AccountDoesNotExist` from `add_member`/`remove_member` and
`GroupDoesNotExist` from `add_child`/`remove_child` with no modify operation
issued; when the modify is issued, entry-already-exists maps to
`EntryAlreadyExists`, insufficient access rights to
`InsufficientPermissions`, and any other protocol fault to
`ModificationFailed`, each message built on the prefix embedding the action
verb, the target kind, the target identifier and the group DN. -/
theorem membership_fault_mapping :
    (∀ (g : ADGroup) (lv : String) (resp : List SearchEntry) (mo : ModifyOutcome),
       searchResEntries resp = [] →
       add_member g lv resp mo =
         (Except.error (LGError.accountDoesNotExist
           ("The " ++ g.user_lookup_attr ++ " provided does not exist in the Active Directory.")),
          [])) ∧
    (∀ (g : ADGroup) (lv : String) (resp : List SearchEntry) (mo : ModifyOutcome),
       searchResEntries resp = [] →
       remove_member g lv resp mo =
         (Except.error (LGError.accountDoesNotExist
           ("The " ++ g.user_lookup_attr ++ " provided does not exist in the Active Directory.")),
          [])) ∧
    (∀ (g : ADGroup) (lv : String) (resp : List SearchEntry) (mo : ModifyOutcome),
       searchResEntries resp = [] →
       add_child g lv resp mo =
         (Except.error (LGError.groupDoesNotExist
           ("The " ++ g.group_lookup_attr ++ " provided does not exist in the Active Directory.")),
          [])) ∧
    (∀ (g : ADGroup) (lv : String) (resp : List SearchEntry) (mo : ModifyOutcome),
       searchResEntries resp = [] →
       remove_child g lv resp mo =
         (Except.error (LGError.groupDoesNotExist
           ("The " ++ g.group_lookup_attr ++ " provided does not exist in the Active Directory.")),
          [])) ∧
    (∀ (gdn tt ti : String) (m : Modification),
       attempt_modification gdn tt ti m ModifyOutcome.entryAlreadyExistsResult =
         Except.error (LGError.entryAlreadyExists
           (modMessageBase gdn tt ti m ++ "The " ++ tt ++ " already exists."))) ∧
    (∀ (gdn tt ti : String) (m : Modification),
       attempt_modification gdn tt ti m ModifyOutcome.insufficientAccessRightsResult =
         Except.error (LGError.insufficientPermissions
           (modMessageBase gdn tt ti m
             ++ "The bind user does not have permission to modify this group."))) ∧
    (∀ (gdn tt ti em : String) (m : Modification),
       attempt_modification gdn tt ti m (ModifyOutcome.otherLDAPError em) =
         Except.error (LGError.modificationFailed (modMessageBase gdn tt ti m ++ em))) ∧
    modMessageBase "CN=g,DC=x" "member" "jdoe" ⟨"member", ModType.modifyAdd, ["CN=j,DC=x"]⟩ =
      "Error adding member 'jdoe' to group 'CN=g,DC=x': " ∧
    modMessageBase "CN=g,DC=x" "child" "grp" ⟨"member", ModType.modifyDelete, ["CN=c,DC=x"]⟩ =
      "Error removing child 'grp' from group 'CN=g,DC=x': " := by
  refine ⟨?_, ?_, ?_, ?_, fun gdn tt ti m => rfl, fun gdn tt ti m => rfl,
    fun gdn tt ti em m => rfl, rfl, rfl⟩
  · intro g lv resp mo h
    simp [add_member, get_user_dn, h]
  · intro g lv resp mo h
    simp [remove_member, get_user_dn, h]
  · intro g lv resp mo h
    simp [add_child, get_group_dn, h]
  · intro g lv resp mo h
    simp [remove_child, get_group_dn, h]

/-- Witness for C9 at an empty user-search response: the account fault is
raised and no modify operation is issued. -/
theorem membership_fault_mapping_witness :
    searchResEntries [] = [] ∧
    add_member g0 "jdoe" [] ModifyOutcome.ok =
      (Except.error (LGError.accountDoesNotExist
        ("The " ++ g0.user_lookup_attr ++ " provided does not exist in the Active Directory.")),
       []) :=
  ⟨rfl, membership_fault_mapping.1 g0 "jdoe" [] ModifyOutcome.ok rfl⟩

/-- Claim C10: `ADGroup.__eq__` holds exactly when the other object is an
`ADGroup` with the same group DN, independent of every other configuration
field; `__hash__` is the hash of the group DN, so equal handles hash
equally. -/
theorem eq_hash_by_group_dn_only :
    (∀ (a : ADGroup) (o : PyObject),
       a.eq o = true ↔ ∃ b, o = PyObject.adgroup b ∧ a.group_dn = b.group_dn) ∧
    (∀ a : ADGroup, a.hashPy = String.hash a.group_dn) ∧
    (∀ a b : ADGroup, a.eq (PyObject.adgroup b) = true → a.hashPy = b.hashPy) := by
  refine ⟨?_, fun a => rfl, ?_⟩
  · intro a o
    cases o with
    | adgroup b => simp [ADGroup.eq]
    | other t => simp [ADGroup.eq]
  · intro a b h
    have hdn : a.group_dn = b.group_dn := by simpa [ADGroup.eq] using h
    simp [ADGroup.hashPy, hdn]

/-- Witness for C10 on two handles sharing a DN but differing in server URI
and bind DN. -/
theorem eq_hash_by_group_dn_only_witness :
    ADGroup.eq g0 (PyObject.adgroup g1) = true ∧ g0.hashPy = g1.hashPy :=
  ⟨by decide, eq_hash_by_group_dn_only.2.2 g0 g1 (by decide)⟩

end LdapGroups
